import Mathlib

set_option maxHeartbeats 1000000

/-!
Verification of the System API validation / structured-error / request-context
core (Eigen-OS), shallowly embedded from the Python sources:

- `src/services/system-api/src/system_api/errors.py`
- `src/services/system-api/src/system_api/validation.py`
- `src/services/system-api/src/system_api/observability.py`
- `src/services/system-api/src/system_api/grpc_impl.py`
- `examples/python/public_api_skeleton_server.py`
- `examples/python/internal_api_skeleton_server.py`

Python machine integers are modelled as `Int` (Python ints are unbounded),
protobuf strings as `String`, the protobuf oneof as an `Option` of a tagged
union, and the abort-style control flow of the dispatch layer as
`Except StructuredError` results (the abort primitive raises, so a handler
either returns a response or terminates with exactly one structured error).
Fresh identifiers and clock reads are passed as explicit parameters.
-/

namespace SystemApi

/-! ## Field violation model (`errors.py`) -/

/-- One (field path, human-readable reason) pair, `errors.py::FieldViolation`. -/
structure FieldViolation where
  field : String
  description : String
deriving DecidableEq, Repr

/-- `errors.py::required_string`: one violation iff the string is empty
(Python `if not value`). -/
def required_string (value : String) (field : String) : List FieldViolation :=
  if value = "" then [{ field := field, description := "field is required" }] else []

/-- `errors.py::positive_int`: one violation iff `value <= 0`. -/
def positive_int (value : Int) (field : String) : List FieldViolation :=
  if value ≤ 0 then [{ field := field, description := "must be > 0" }] else []

/-- The integer wire value of `grpc.StatusCode.INVALID_ARGUMENT`. -/
def GRPC_INVALID_ARGUMENT : Nat := 3

/-- The structured failure `errors.py::abort_invalid_argument` terminates a
call with: a status code, a message, and the `BadRequest` field violations. -/
structure StructuredError where
  code : Nat
  message : String
  field_violations : List FieldViolation
deriving DecidableEq, Repr

/-- `errors.py::abort_invalid_argument`: builds the `INVALID_ARGUMENT` status
carrying all violations and terminates the call (embedded as `Except.error`,
since `context.abort_with_status` raises and never returns normally). -/
def abort_invalid_argument (message : String) (violations : List FieldViolation) :
    Except StructuredError ρ :=
  Except.error
    { code := GRPC_INVALID_ARGUMENT, message := message, field_violations := violations }

/-! ## Request payloads (protobuf messages used by `validation.py`) -/

/-- `eigen.api.v1` source-language program payload (`eigen_lang` variant). -/
structure EigenLangProgram where
  entrypoint : String
  source : String
deriving DecidableEq, Repr

/-- `eigen.api.v1` intermediate-representation program payload (`qasm` variant). -/
structure QasmProgram where
  source : String
  version : String
deriving DecidableEq, Repr

/-- `eigen.api.v1` external-reference program payload (`aqo_ref` variant). -/
structure AqoRefProgram where
  qfs_ref : String
deriving DecidableEq, Repr

/-- The `program` oneof of `SubmitJobRequest`: exactly one variant when set.
`WhichOneof("program")` is `none` when no variant is selected. -/
inductive ProgramOneof where
  | eigen_lang : EigenLangProgram → ProgramOneof
  | qasm : QasmProgram → ProgramOneof
  | aqo_ref : AqoRefProgram → ProgramOneof
deriving DecidableEq, Repr

/-- `eigen.api.v1.SubmitJobRequest`. -/
structure SubmitJobRequest where
  name : String
  target : String
  program : Option ProgramOneof
deriving DecidableEq, Repr

/-! ## Validation rules (`validation.py`) -/

/-- `validation.py::validate_submit_job`, translated clause for clause:
`name` and `target` required; then the `program` oneof is inspected and the
selected variant gets its per-variant checks, in source order. -/
def validate_submit_job (req : SubmitJobRequest) : List FieldViolation :=
  let violations :=
    required_string req.name "name" ++ required_string req.target "target"
  match req.program with
  | none =>
      violations ++ [{ field := "program", description := "oneof program is required" }]
  | some (ProgramOneof.eigen_lang p) =>
      violations ++ required_string p.entrypoint "eigen_lang.entrypoint" ++
        (if p.source = "" then
          [{ field := "eigen_lang.source", description := "source must be non-empty" }]
        else [])
  | some (ProgramOneof.qasm p) =>
      violations ++
        (if p.source = "" then
          [{ field := "qasm.source", description := "source must be non-empty" }]
        else []) ++
        required_string p.version "qasm.version"
  | some (ProgramOneof.aqo_ref p) =>
      violations ++ required_string p.qfs_ref "aqo_ref.qfs_ref"

/-- A duck-typed request object, modelled as its bag of string attributes
(`getattr` reads the first binding of a name; a Python object has at most
one binding per attribute name). -/
def AttrBag := List (String × String)

/-- Python `getattr(req, attr, dflt)` on a string attribute. -/
def getattr_string (req : AttrBag) (attr : String) (dflt : String) : String :=
  (List.lookup attr req).getD dflt

/-- `validation.py::validate_job_id`: requires the identifier attribute,
reading it with `getattr(req, field_name, "")`. -/
def validate_job_id (req : AttrBag) (field_name : String) : List FieldViolation :=
  required_string (getattr_string req field_name "") field_name

/-- `validation.py::validate_device_id`: same shape as `validate_job_id`. -/
def validate_device_id (req : AttrBag) (field_name : String) : List FieldViolation :=
  required_string (getattr_string req field_name "") field_name

/-- `eigen.api.v1.ReserveDeviceRequest`. -/
structure ReserveDeviceRequest where
  device_id : String
  ttl_seconds : Int
deriving DecidableEq, Repr

/-- `validation.py::validate_reserve_device`: both checks run eagerly and the
results are concatenated. -/
def validate_reserve_device (req : ReserveDeviceRequest) : List FieldViolation :=
  required_string req.device_id "device_id" ++ positive_int req.ttl_seconds "ttl_seconds"

/-! ## Request context (`observability.py`) -/

/-- Per-call context, `observability.py::RequestContext`. -/
structure RequestContext where
  request_id : String
  traceparent : Option String
  trace_id : Option String
deriving DecidableEq, Repr

/-- Python `str.lower()` on a header key (ASCII case folding; header keys are
ASCII on the wire). -/
def lower_key (s : String) : String := String.mk (s.toList.map Char.toLower)

/-- The dict comprehension `{k.lower(): v for (k, v) in metadata}` followed by
`.get(key)`: the value of the last pair whose lowercased key equals `key`. -/
def md_get (metadata : List (String × String)) (key : String) : Option String :=
  metadata.foldl (fun acc kv => if lower_key kv.1 = key then some kv.2 else acc) none

/-- The character class `[0-9a-f]` of `_TRACEPARENT_RE`. -/
def isLowerHexDigit (c : Char) : Bool :=
  (decide ('0' ≤ c) && decide (c ≤ '9')) || (decide ('a' ≤ c) && decide (c ≤ 'f'))

/-- Match a run of exactly `n` characters of `[0-9a-f]`; return the run and
the remainder of the input. -/
def takeHex : Nat → List Char → Option (List Char × List Char)
  | 0, cs => some ([], cs)
  | _ + 1, [] => none
  | n + 1, c :: cs =>
      if isLowerHexDigit c then
        (takeHex n cs).bind fun pr => some (c :: pr.1, pr.2)
      else none

/-- Match one literal character and return the remainder. -/
def expectChar (c : Char) : List Char → Option (List Char)
  | [] => none
  | c2 :: cs => if c2 = c then some cs else none

/-- The body of `_TRACEPARENT_RE` = `[0-9a-f]{2}-[0-9a-f]{32}-[0-9a-f]{16}-[0-9a-f]{2}`:
a deterministic parser (the regex has only fixed-width character classes, so
the backtracking engine and this parser decide the same language). Returns
the captured `trace_id` group and the unconsumed remainder. -/
def parse_traceparent (cs : List Char) : Option (List Char × List Char) :=
  (takeHex 2 cs).bind fun vr =>
  (expectChar '-' vr.2).bind fun r2 =>
  (takeHex 32 r2).bind fun tr =>
  (expectChar '-' tr.2).bind fun r4 =>
  (takeHex 16 r4).bind fun sr =>
  (expectChar '-' sr.2).bind fun r6 =>
  (takeHex 2 r6).bind fun fr =>
  some (tr.1, fr.2)

/-- The group extraction of `_TRACEPARENT_RE.match` at the level of the
character list, with the Python anchors: `^` pins the match to the start, and
`$` (without `re.MULTILINE`) accepts either the end of the string or a
position just before a single trailing newline. -/
def python_match_group (cs : List Char) : Option (List Char) :=
  match parse_traceparent cs with
  | some (tid, rest) => if rest = [] ∨ rest = ['\n'] then some tid else none
  | none => none

/-- `_TRACEPARENT_RE.match(s)` returning the `trace_id` group on a match. -/
def traceparent_trace_id (s : String) : Option String :=
  (python_match_group s.toList).map String.mk

/-- `observability.py::new_request_context`. The freshly generated
`uuid.uuid4()` request id is passed in explicitly; the inbound invocation
metadata is the list of key/value pairs. -/
def new_request_context (fresh_uuid : String) (metadata : List (String × String)) :
    RequestContext :=
  let traceparent := md_get metadata "traceparent"
  let trace_id_hdr := md_get metadata "trace_id"
  let trace_id :=
    match trace_id_hdr, traceparent with
    | none, some tp => if tp = "" then none else traceparent_trace_id tp
    | t, _ => t
  { request_id := fresh_uuid, traceparent := traceparent, trace_id := trace_id }

/-! ## Response payloads (`eigen.api.v1` protobuf messages, proto defaults for
unset fields) -/

/-- `eigen.api.v1.JobState` values used by the stub handlers. -/
inductive JobState where
  | QUEUED
  | RUNNING
  | DONE
deriving DecidableEq, Repr

/-- `eigen.api.v1.DeviceStatus` values used by the stub handlers. -/
inductive DeviceStatusCode where
  | ONLINE
  | OFFLINE
deriving DecidableEq, Repr

/-- `eigen.api.v1.JobStatus`. Timestamps are opaque clock readings; `progress`
is the exact value of the float constant the stub writes (only `0.0` and
`1.0` occur, both exactly representable). -/
structure JobStatus where
  job_id : String
  state : JobState
  stage : String
  progress : Rat
  message : String
  created_at : Nat
  updated_at : Nat
deriving DecidableEq, Repr

/-- `eigen.api.v1.JobResponse`. -/
structure JobResponse where
  job_id : String
  status : JobStatus
deriving DecidableEq, Repr

/-- `eigen.api.v1.JobStatusResponse`. -/
structure JobStatusResponse where
  status : JobStatus
deriving DecidableEq, Repr

/-- `eigen.api.v1.CancelJobResponse`. -/
structure CancelJobResponse where
  accepted : Bool
deriving DecidableEq, Repr

/-- `eigen.api.v1.JobUpdate`, one streamed event. -/
structure JobUpdate where
  job_id : String
  state : JobState
  stage : String
  progress : Rat
  message : String
  event_seq : Int
  timestamp : Nat
deriving DecidableEq, Repr

/-- `eigen.api.v1.JobResultsResponse` (maps as association lists). -/
structure JobResultsResponse where
  job_id : String
  state : JobState
  counts : List (String × Nat)
  metadata : List (String × String)
  completed_at : Nat
deriving DecidableEq, Repr

/-- `eigen.api.v1.DeviceInfo`. -/
structure DeviceInfo where
  device_id : String
  name : String
  backend_type : String
  status : DeviceStatusCode
  queue_depth : Nat
  estimated_wait_sec : Nat
  capabilities : List (String × String)
deriving DecidableEq, Repr

/-- `eigen.api.v1.ListDevicesResponse` (also the shape of the internal
`eigen_internal.v1.ListDevicesResponse`; both are a repeated device field). -/
structure ListDevicesResponse where
  devices : List DeviceInfo
deriving DecidableEq, Repr

/-- `eigen.api.v1.DeviceDetailsResponse`. -/
structure DeviceDetailsResponse where
  device : DeviceInfo
deriving DecidableEq, Repr

/-- `eigen.api.v1.DeviceStatusResponse`. -/
structure DeviceStatusResponse where
  device_id : String
  status : DeviceStatusCode
  queue_depth : Nat
  estimated_wait_sec : Nat
  metadata : List (String × String)
deriving DecidableEq, Repr

/-- `eigen.api.v1.ReserveDeviceResponse`. -/
structure ReserveDeviceResponse where
  reservation_id : String
  expires_at : Nat
deriving DecidableEq, Repr

/-- Shape shared by `JobStatusRequest`, `CancelJobRequest` and
`JobResultsRequest`: a single `job_id` field. -/
structure JobIdRequest where
  job_id : String
deriving DecidableEq, Repr

/-- `eigen.api.v1.StreamJobUpdatesRequest`. -/
structure StreamJobUpdatesRequest where
  job_id : String
  last_event_seq : Int
deriving DecidableEq, Repr

/-- Shape shared by `GetDeviceDetailsRequest` and `GetDeviceStatusRequest`. -/
structure DeviceIdRequest where
  device_id : String
deriving DecidableEq, Repr

/-- `eigen.api.v1.ListDevicesRequest` (the optional filter is ignored by every
implementation). -/
structure ListDevicesRequest where
  backend_type : String
deriving DecidableEq, Repr

/-! ## Dispatch layer (`grpc_impl.py`)

Each handler validates, aborts with one `INVALID_ARGUMENT` structured error
when violations exist (the abort raises, so nothing after it runs), and
otherwise builds its canned response. `uuid_hex12` stands for
`uuid.uuid4().hex[:12]` and the `Nat` parameters for `_ts_now()` readings.
The protobuf message objects expose their scalar fields as attributes, so
`validate_job_id(request)` reads the bag `[("job_id", request.job_id)]`. -/

/-- `grpc_impl.py::JobService.SubmitJob`. -/
def JobService.SubmitJob (uuid_hex12 : String) (now : Nat) (request : SubmitJobRequest) :
    Except StructuredError JobResponse :=
  let violations := validate_submit_job request
  if violations ≠ [] then
    abort_invalid_argument "validation failed" violations
  else
    let job_id := "job_" ++ uuid_hex12
    Except.ok
      { job_id := job_id
        status :=
          { job_id := job_id, state := JobState.QUEUED, stage := "QUEUED", progress := 0,
            message := "accepted (stub)", created_at := now, updated_at := now } }

/-- `grpc_impl.py::JobService.GetJobStatus`. -/
def JobService.GetJobStatus (now : Nat) (request : JobIdRequest) :
    Except StructuredError JobStatusResponse :=
  let violations := validate_job_id [("job_id", request.job_id)] "job_id"
  if violations ≠ [] then
    abort_invalid_argument "validation failed" violations
  else
    Except.ok
      { status :=
          { job_id := request.job_id, state := JobState.QUEUED, stage := "QUEUED", progress := 0,
            message := "stub status", created_at := now, updated_at := now } }

/-- `grpc_impl.py::JobService.CancelJob`. -/
def JobService.CancelJob (request : JobIdRequest) :
    Except StructuredError CancelJobResponse :=
  let violations := validate_job_id [("job_id", request.job_id)] "job_id"
  if violations ≠ [] then
    abort_invalid_argument "validation failed" violations
  else
    Except.ok { accepted := true }

/-- `grpc_impl.py::JobService.StreamJobUpdates`: after validation, yields the
QUEUED event at `seq = max(1, last_event_seq + 1)` and the DONE event at
`seq + 1`, then stops (the generator ends). The whole finite stream is the
returned list. -/
def JobService.StreamJobUpdates (ts1 ts2 : Nat) (request : StreamJobUpdatesRequest) :
    Except StructuredError (List JobUpdate) :=
  let violations := validate_job_id [("job_id", request.job_id)] "job_id"
  if violations ≠ [] then
    abort_invalid_argument "validation failed" violations
  else
    let seq := max 1 (request.last_event_seq + 1)
    Except.ok
      [ { job_id := request.job_id, state := JobState.QUEUED, stage := "QUEUED", progress := 0,
          message := "queued (stub)", event_seq := seq, timestamp := ts1 },
        { job_id := request.job_id, state := JobState.DONE, stage := "DONE", progress := 1,
          message := "done (stub)", event_seq := seq + 1, timestamp := ts2 } ]

/-- `grpc_impl.py::JobService.GetJobResults`. -/
def JobService.GetJobResults (now : Nat) (request : JobIdRequest) :
    Except StructuredError JobResultsResponse :=
  let violations := validate_job_id [("job_id", request.job_id)] "job_id"
  if violations ≠ [] then
    abort_invalid_argument "validation failed" violations
  else
    Except.ok
      { job_id := request.job_id, state := JobState.DONE,
        counts := [("00", 512), ("11", 512)], metadata := [("stub", "true")],
        completed_at := now }

/-- The single canned device of `grpc_impl.py::DeviceService.ListDevices`. -/
def sim_local_device : DeviceInfo :=
  { device_id := "sim:local", name := "Local simulator", backend_type := "simulator",
    status := DeviceStatusCode.ONLINE, queue_depth := 0, estimated_wait_sec := 0,
    capabilities := [("shots", "1024")] }

/-- `grpc_impl.py::DeviceService.ListDevices`: no validation, always the same
one-element canned list. -/
def DeviceService.ListDevices (request : ListDevicesRequest) :
    Except StructuredError ListDevicesResponse :=
  Except.ok { devices := [sim_local_device] }

/-- `grpc_impl.py::DeviceService.GetDeviceDetails`. -/
def DeviceService.GetDeviceDetails (request : DeviceIdRequest) :
    Except StructuredError DeviceDetailsResponse :=
  let violations := validate_device_id [("device_id", request.device_id)] "device_id"
  if violations ≠ [] then
    abort_invalid_argument "validation failed" violations
  else
    Except.ok
      { device :=
          { device_id := request.device_id, name := "Device (stub)",
            backend_type := "simulator", status := DeviceStatusCode.ONLINE,
            queue_depth := 0, estimated_wait_sec := 0, capabilities := [] } }

/-- `grpc_impl.py::DeviceService.GetDeviceStatus`. -/
def DeviceService.GetDeviceStatus (request : DeviceIdRequest) :
    Except StructuredError DeviceStatusResponse :=
  let violations := validate_device_id [("device_id", request.device_id)] "device_id"
  if violations ≠ [] then
    abort_invalid_argument "validation failed" violations
  else
    Except.ok
      { device_id := request.device_id, status := DeviceStatusCode.ONLINE,
        queue_depth := 0, estimated_wait_sec := 0, metadata := [("stub", "true")] }

/-- `grpc_impl.py::DeviceService.ReserveDevice`. -/
def DeviceService.ReserveDevice (uuid_hex12 : String) (now : Nat)
    (request : ReserveDeviceRequest) : Except StructuredError ReserveDeviceResponse :=
  let violations := validate_reserve_device request
  if violations ≠ [] then
    abort_invalid_argument "validation failed" violations
  else
    Except.ok { reservation_id := "rsv_" ++ uuid_hex12, expires_at := now }

/-- `examples/python/public_api_skeleton_server.py::DeviceService.ListDevices`:
returns `ListDevicesResponse(devices=[])`, never an error. -/
def PublicApiSkeleton.ListDevices (request : ListDevicesRequest) :
    Except StructuredError ListDevicesResponse :=
  Except.ok { devices := [] }

/-- `examples/python/internal_api_skeleton_server.py::DriverManagerService.ListDevices`:
returns `ListDevicesResponse(devices=[])`, never an error. -/
def DriverManagerSkeleton.ListDevices (request : ListDevicesRequest) :
    Except StructuredError ListDevicesResponse :=
  Except.ok { devices := [] }

/-! ## The traceparent format as the spec words it

Section 4.3 of the spec: the `traceparent` header matches the fixed format
`version(2 hex)-traceid(32 hex)-spanid(16 hex)-flags(2 hex)` joined by
hyphens, and the trace-id group is extracted. These definitions render that
wording independently of the code's matcher, for comparison with it. -/

/-- Exact membership in the spec's fixed format: 55 characters, hyphens at
positions 2, 35 and 52, lowercase hex everywhere else. -/
def spec_format_chars (cs : List Char) : Bool :=
  decide (cs.length = 55) &&
  (cs.take 2).all isLowerHexDigit &&
  decide ((cs.drop 2).take 1 = ['-']) &&
  ((cs.drop 3).take 32).all isLowerHexDigit &&
  decide ((cs.drop 35).take 1 = ['-']) &&
  ((cs.drop 36).take 16).all isLowerHexDigit &&
  decide ((cs.drop 52).take 1 = ['-']) &&
  ((cs.drop 53).take 2).all isLowerHexDigit

/-- The spec's trace-id group: the 32 hex characters after the first hyphen,
defined only on exact members of the format. -/
def spec_group (cs : List Char) : Option (List Char) :=
  if spec_format_chars cs then some ((cs.drop 3).take 32) else none

/-- The spec's extraction on a whole header string. -/
def spec_traceparent_trace_id (s : String) : Option String :=
  (spec_group s.toList).map String.mk

/-- Remove one trailing newline character when present (the extra strings
accepted by the Python `$` anchor are exactly those whose stripped form is
accepted exactly). -/
def strip_nl_list (cs : List Char) : List Char :=
  if cs.getLast? = some '\n' then cs.dropLast else cs

/-- `strip_nl_list` on a whole string. -/
def strip_trailing_newline (s : String) : String :=
  String.mk (strip_nl_list s.toList)

/-! ## Correctness of the matcher against the spec wording -/

/-- `takeHex` accepts exactly the length-`n` lowercase-hex prefixes. -/
theorem takeHex_eq_some {n : Nat} {cs p r : List Char} :
    takeHex n cs = some (p, r) ↔
      cs = p ++ r ∧ p.length = n ∧ p.all isLowerHexDigit := by
  induction n generalizing cs p r with
  | zero =>
      simp only [takeHex, Option.some.injEq, Prod.mk.injEq, List.length_eq_zero]
      constructor
      · rintro ⟨h1, h2⟩
        subst h1 h2
        simp
      · rintro ⟨h1, h2, -⟩
        subst h2
        simp_all
  | succ n ih =>
      cases cs with
      | nil =>
          simp only [takeHex]
          constructor
          · rintro ⟨⟩
          · rintro ⟨h1, h2, -⟩
            cases p with
            | nil => simp at h2
            | cons a as => simp at h1
      | cons c cs =>
          simp only [takeHex]
          by_cases hx : isLowerHexDigit c
          · simp only [hx, if_true, Option.bind_eq_some, Option.some.injEq, Prod.mk.injEq]
            constructor
            · rintro ⟨⟨p1, r1⟩, hp, h1, h2⟩
              obtain ⟨hcs, hlen, hall⟩ := ih.mp hp
              subst hcs h1 h2
              simp_all
            · rintro ⟨h1, h2, h3⟩
              cases p with
              | nil => simp at h2
              | cons a as =>
                  simp only [List.cons_append, List.cons.injEq] at h1
                  obtain ⟨rfl, hcs⟩ := h1
                  simp only [List.length_cons, Nat.succ.injEq] at h2
                  simp only [List.all_cons, Bool.and_eq_true] at h3
                  exact ⟨(as, r), ih.mpr ⟨hcs, h2, h3.2⟩, rfl, rfl⟩
          · simp only [hx, if_false]
            constructor
            · rintro ⟨⟩
            · rintro ⟨h1, h2, h3⟩
              cases p with
              | nil => simp at h2
              | cons a as =>
                  simp only [List.cons_append, List.cons.injEq] at h1
                  obtain ⟨rfl, -⟩ := h1
                  simp only [List.all_cons, Bool.and_eq_true] at h3
                  exact absurd h3.1 hx

/-- `expectChar` accepts exactly the inputs starting with the literal. -/
theorem expectChar_eq_some {c : Char} {cs r : List Char} :
    expectChar c cs = some r ↔ cs = c :: r := by
  cases cs with
  | nil => simp [expectChar]
  | cons a as =>
      simp only [expectChar, List.cons.injEq]
      by_cases h : a = c <;> simp [h]

/-- Structure of a successful run of the pattern body: the input decomposes
into the four hex groups joined by hyphens, followed by the remainder. -/
theorem parse_traceparent_eq_some {cs tid rest : List Char} :
    parse_traceparent cs = some (tid, rest) ↔
      ∃ v sp fl, cs = v ++ '-' :: (tid ++ '-' :: (sp ++ '-' :: (fl ++ rest))) ∧
        v.length = 2 ∧ tid.length = 32 ∧ sp.length = 16 ∧ fl.length = 2 ∧
        v.all isLowerHexDigit ∧ tid.all isLowerHexDigit ∧
        sp.all isLowerHexDigit ∧ fl.all isLowerHexDigit := by
  simp only [parse_traceparent, Option.bind_eq_some, expectChar_eq_some, takeHex_eq_some,
    Option.some.injEq, Prod.mk.injEq, Prod.exists]
  constructor
  · rintro ⟨v, r1, ⟨hcs, hv, hvx⟩, r2, hr1, t, r3, ⟨hr2, ht, htx⟩, r4, hr3, sp, r5,
      ⟨hr4, hsp, hspx⟩, r6, hr5, fl, r7, ⟨hr6, hfl, hflx⟩, htid, hrest⟩
    subst hcs hr1 hr2 hr3 hr4 hr5 hr6 htid hrest
    exact ⟨v, sp, fl, rfl, hv, ht, hsp, hfl, hvx, htx, hspx, hflx⟩
  · rintro ⟨v, sp, fl, hcs, hv, ht, hsp, hfl, hvx, htx, hspx, hflx⟩
    exact ⟨v, '-' :: (tid ++ '-' :: (sp ++ '-' :: (fl ++ rest))), ⟨hcs, hv, hvx⟩,
      tid ++ '-' :: (sp ++ '-' :: (fl ++ rest)), rfl,
      tid, '-' :: (sp ++ '-' :: (fl ++ rest)), ⟨rfl, ht, htx⟩,
      sp ++ '-' :: (fl ++ rest), rfl,
      sp, '-' :: (fl ++ rest), ⟨rfl, hsp, hspx⟩,
      fl ++ rest, rfl,
      fl, rest, ⟨rfl, hfl, hflx⟩, rfl, rfl⟩

/-- The spec's positional format check holds exactly on the hyphen-joined
four-group decompositions. -/
theorem spec_group_eq_some {l t : List Char} :
    spec_group l = some t ↔
      ∃ v sp fl, l = v ++ '-' :: (t ++ '-' :: (sp ++ '-' :: fl)) ∧
        v.length = 2 ∧ t.length = 32 ∧ sp.length = 16 ∧ fl.length = 2 ∧
        v.all isLowerHexDigit ∧ t.all isLowerHexDigit ∧
        sp.all isLowerHexDigit ∧ fl.all isLowerHexDigit := by
  constructor
  · intro h
    simp only [spec_group] at h
    by_cases hf : spec_format_chars l = true
    swap
    · simp [hf] at h
    rw [if_pos hf] at h
    obtain rfl : (l.drop 3).take 32 = t := by simpa using h
    simp only [spec_format_chars, Bool.and_eq_true, decide_eq_true_eq] at hf
    obtain ⟨⟨⟨⟨⟨⟨⟨hlen, hv⟩, h2⟩, ht⟩, h35⟩, hsp⟩, h52⟩, hfl⟩ := hf
    have e2 : l.drop 2 = '-' :: l.drop 3 := by
      conv_lhs => rw [← List.take_append_drop 1 (l.drop 2)]
      rw [h2, List.drop_drop]
      exact rfl
    have e3 : l.drop 3 = (l.drop 3).take 32 ++ l.drop 35 := by
      conv_lhs => rw [← List.take_append_drop 32 (l.drop 3)]
      rw [List.drop_drop]
    have e35 : l.drop 35 = '-' :: l.drop 36 := by
      conv_lhs => rw [← List.take_append_drop 1 (l.drop 35)]
      rw [h35, List.drop_drop]
      exact rfl
    have e36 : l.drop 36 = (l.drop 36).take 16 ++ l.drop 52 := by
      conv_lhs => rw [← List.take_append_drop 16 (l.drop 36)]
      rw [List.drop_drop]
    have e52 : l.drop 52 = '-' :: l.drop 53 := by
      conv_lhs => rw [← List.take_append_drop 1 (l.drop 52)]
      rw [h52, List.drop_drop]
      exact rfl
    have h53 : (l.drop 53).take 2 = l.drop 53 :=
      List.take_of_length_le (by rw [List.length_drop, hlen])
    refine ⟨l.take 2, (l.drop 36).take 16, l.drop 53, ?_, ?_, ?_, ?_, ?_, hv, ht, hsp, ?_⟩
    · rw [← e52, ← e36, ← e35, ← e3, ← e2]
      exact (List.take_append_drop 2 l).symm
    · rw [List.length_take, hlen]
      decide
    · rw [List.length_take, List.length_drop, hlen]
      decide
    · rw [List.length_take, List.length_drop, hlen]
      decide
    · rw [List.length_drop, hlen]
    · rw [← h53]
      exact hfl
  · rintro ⟨v, sp, fl, rfl, hv, ht, hsp, hfl, hvx, htx, hspx, hflx⟩
    have p2 : (v ++ '-' :: (t ++ '-' :: (sp ++ '-' :: fl))).take 2 = v := List.take_left' hv
    have d2 : (v ++ '-' :: (t ++ '-' :: (sp ++ '-' :: fl))).drop 2 =
        '-' :: (t ++ '-' :: (sp ++ '-' :: fl)) := List.drop_left' hv
    have d3 : (v ++ '-' :: (t ++ '-' :: (sp ++ '-' :: fl))).drop 3 =
        t ++ '-' :: (sp ++ '-' :: fl) := by
      rw [show (3 : Nat) = 2 + 1 from rfl, ← List.drop_drop, d2]
      exact rfl
    have p3 : ((v ++ '-' :: (t ++ '-' :: (sp ++ '-' :: fl))).drop 3).take 32 = t := by
      rw [d3]
      exact List.take_left' ht
    have d35 : (v ++ '-' :: (t ++ '-' :: (sp ++ '-' :: fl))).drop 35 =
        '-' :: (sp ++ '-' :: fl) := by
      rw [show (35 : Nat) = 3 + 32 from rfl, ← List.drop_drop, d3, List.drop_left' ht]
    have d36 : (v ++ '-' :: (t ++ '-' :: (sp ++ '-' :: fl))).drop 36 = sp ++ '-' :: fl := by
      rw [show (36 : Nat) = 35 + 1 from rfl, ← List.drop_drop, d35]
      exact rfl
    have p36 : ((v ++ '-' :: (t ++ '-' :: (sp ++ '-' :: fl))).drop 36).take 16 = sp := by
      rw [d36]
      exact List.take_left' hsp
    have d52 : (v ++ '-' :: (t ++ '-' :: (sp ++ '-' :: fl))).drop 52 = '-' :: fl := by
      rw [show (52 : Nat) = 36 + 16 from rfl, ← List.drop_drop, d36, List.drop_left' hsp]
    have d53 : (v ++ '-' :: (t ++ '-' :: (sp ++ '-' :: fl))).drop 53 = fl := by
      rw [show (53 : Nat) = 52 + 1 from rfl, ← List.drop_drop, d52]
      exact rfl
    have hlen : (v ++ '-' :: (t ++ '-' :: (sp ++ '-' :: fl))).length = 55 := by
      simp [List.length_append, hv, ht, hsp, hfl]
    have hfl2 : (fl.take 2).all isLowerHexDigit = true := by
      rw [List.take_of_length_le (le_of_eq hfl)]
      exact hflx
    have hfmt : spec_format_chars (v ++ '-' :: (t ++ '-' :: (sp ++ '-' :: fl))) = true := by
      simp [spec_format_chars, hlen, p2, p3, d2, d35, d36, d52, d53, p36, hvx, htx, hspx, hfl2,
        List.take_left' hv, List.take_left' ht, List.take_left' hsp]
    rw [spec_group, if_pos hfmt, p3]

/-- An exact-format decomposition of the stripped input reconstructs a
successful matcher run on the raw input. -/
theorem spec_strip_parse {cs t : List Char} (h : spec_group (strip_nl_list cs) = some t) :
    parse_traceparent cs = some (t, []) ∨ parse_traceparent cs = some (t, ['\n']) := by
  obtain ⟨v, sp, fl, hl, hv, ht, hsp, hfl, hvx, htx, hspx, hflx⟩ := spec_group_eq_some.mp h
  by_cases hnl : cs.getLast? = some '\n'
  · right
    have hcs : cs.dropLast ++ ['\n'] = cs :=
      List.dropLast_append_getLast? _ (Option.mem_def.mpr hnl)
    rw [strip_nl_list, if_pos hnl] at hl
    refine parse_traceparent_eq_some.mpr ⟨v, sp, fl, ?_, hv, ht, hsp, hfl, hvx, htx, hspx, hflx⟩
    rw [← hcs, hl]
    simp
  · left
    rw [strip_nl_list, if_neg hnl] at hl
    refine parse_traceparent_eq_some.mpr ⟨v, sp, fl, ?_, hv, ht, hsp, hfl, hvx, htx, hspx, hflx⟩
    rw [hl]
    simp

/-- A successful matcher run with an accepted remainder yields the exact
format after stripping the optional newline. -/
theorem parse_strip_spec {cs t rest : List Char} (h : parse_traceparent cs = some (t, rest))
    (hr : rest = [] ∨ rest = ['\n']) : spec_group (strip_nl_list cs) = some t := by
  obtain ⟨v, sp, fl, hl, hv, ht, hsp, hfl, hvx, htx, hspx, hflx⟩ :=
    parse_traceparent_eq_some.mp h
  obtain ⟨a, b, rfl⟩ := List.length_eq_two.mp hfl
  rcases hr with rfl | rfl
  · have hb : isLowerHexDigit b = true := by
      simp only [List.all_cons, List.all_nil, Bool.and_eq_true, Bool.and_true] at hflx
      exact hflx.2
    have hcs2 : cs = (v ++ '-' :: (t ++ '-' :: (sp ++ '-' :: [a]))) ++ [b] := by
      rw [hl]
      simp
    have hnl : ¬ cs.getLast? = some '\n' := by
      rw [hcs2, List.getLast?_concat]
      intro hEq
      rw [Option.some.injEq] at hEq
      rw [hEq] at hb
      exact absurd hb (by decide)
    rw [strip_nl_list, if_neg hnl]
    refine spec_group_eq_some.mpr ⟨v, sp, [a, b], ?_, hv, ht, hsp, rfl, hvx, htx, hspx, hflx⟩
    rw [hl]
    simp
  · have hcs2 : cs = (v ++ '-' :: (t ++ '-' :: (sp ++ '-' :: [a, b]))) ++ ['\n'] := by
      rw [hl]
      simp
    have hlast : cs.getLast? = some '\n' := by
      rw [hcs2, List.getLast?_concat]
    rw [strip_nl_list, if_pos hlast, hcs2, List.dropLast_concat]
    exact spec_group_eq_some.mpr ⟨v, sp, [a, b], rfl, hv, ht, hsp, rfl, hvx, htx, hspx, hflx⟩

/-- The matcher agrees with the spec's exact format up to one trailing
newline — exactly the tolerance the Python `$` anchor introduces. -/
theorem python_match_group_eq_spec (cs : List Char) :
    python_match_group cs = spec_group (strip_nl_list cs) := by
  cases hp : parse_traceparent cs with
  | none =>
      simp only [python_match_group, hp]
      cases hs2 : spec_group (strip_nl_list cs) with
      | none => rfl
      | some t =>
          rcases spec_strip_parse hs2 with h | h <;> rw [hp] at h <;> exact absurd h (by simp)
  | some pr =>
      obtain ⟨tid, rest⟩ := pr
      by_cases hr : rest = [] ∨ rest = ['\n']
      · simp only [python_match_group, hp, if_pos hr]
        exact (parse_strip_spec hp hr).symm
      · simp only [python_match_group, hp, if_neg hr]
        cases hs2 : spec_group (strip_nl_list cs) with
        | none => rfl
        | some t =>
            rcases spec_strip_parse hs2 with h | h
            · rw [hp] at h
              simp only [Option.some.injEq, Prod.mk.injEq] at h
              exact absurd (Or.inl h.2) hr
            · rw [hp] at h
              simp only [Option.some.injEq, Prod.mk.injEq] at h
              exact absurd (Or.inr h.2) hr

/-- String-level form of the agreement. -/
theorem traceparent_trace_id_eq_spec (s : String) :
    traceparent_trace_id s = spec_traceparent_trace_id (strip_trailing_newline s) := by
  rw [traceparent_trace_id, python_match_group_eq_spec]
  rfl

/-! ## Helper facts shared by the claim theorems -/

/-- A call either completes with a domain response, or terminates with the
single `INVALID_ARGUMENT` structured error carrying every violation — and
with the violation list deciding which. -/
def completes_or_aborts {R : Type} (violations : List FieldViolation)
    (result : Except StructuredError R) : Prop :=
  (violations = [] ∧ ∃ resp, result = Except.ok resp) ∨
  (violations ≠ [] ∧ result = Except.error
    { code := GRPC_INVALID_ARGUMENT, message := "validation failed",
      field_violations := violations })

/-- Every handler of the dispatch layer has the shape
`if violations ≠ [] then abort else ok response`, which satisfies
`completes_or_aborts`. -/
theorem completes_or_aborts_of_ite {R : Type} (violations : List FieldViolation) (resp : R) :
    completes_or_aborts violations
      (if violations ≠ [] then abort_invalid_argument "validation failed" violations
       else Except.ok resp) := by
  by_cases h : violations = []
  · exact Or.inl ⟨h, resp, by simp [h]⟩
  · exact Or.inr ⟨h, by simp [h, abort_invalid_argument]⟩

/-- Reading the identifier of a protobuf request object that carries exactly
that attribute. -/
theorem validate_job_id_singleton (x f : String) :
    validate_job_id [(f, x)] f = required_string x f := by
  simp [validate_job_id, getattr_string, List.lookup]

/-- Same, for the device-id reader. -/
theorem validate_device_id_singleton (x f : String) :
    validate_device_id [(f, x)] f = required_string x f := by
  simp [validate_device_id, getattr_string, List.lookup]

/-- `required_string` on a non-empty value yields nothing. -/
theorem required_string_ne (x f : String) (h : x ≠ "") : required_string x f = [] := by
  simp [required_string, h]

/-! ## Claim theorems -/

/-- C1: for every handler in the dispatch layer, a call either completes with
a domain response or terminates via exactly one StructuredError, never both:
when validation returns a non-empty violation list the abort is strictly
terminal for the call (it carries all the violations), and no domain response
is additionally built and returned after the abort. -/
theorem C1_complete_or_abort :
    (∀ (u : String) (now : Nat) (req : SubmitJobRequest),
        completes_or_aborts (validate_submit_job req) (JobService.SubmitJob u now req)) ∧
    (∀ (now : Nat) (req : JobIdRequest),
        completes_or_aborts (validate_job_id [("job_id", req.job_id)] "job_id")
          (JobService.GetJobStatus now req)) ∧
    (∀ req : JobIdRequest,
        completes_or_aborts (validate_job_id [("job_id", req.job_id)] "job_id")
          (JobService.CancelJob req)) ∧
    (∀ (ts1 ts2 : Nat) (req : StreamJobUpdatesRequest),
        completes_or_aborts (validate_job_id [("job_id", req.job_id)] "job_id")
          (JobService.StreamJobUpdates ts1 ts2 req)) ∧
    (∀ (now : Nat) (req : JobIdRequest),
        completes_or_aborts (validate_job_id [("job_id", req.job_id)] "job_id")
          (JobService.GetJobResults now req)) ∧
    (∀ req : ListDevicesRequest,
        completes_or_aborts [] (DeviceService.ListDevices req)) ∧
    (∀ req : DeviceIdRequest,
        completes_or_aborts (validate_device_id [("device_id", req.device_id)] "device_id")
          (DeviceService.GetDeviceDetails req)) ∧
    (∀ req : DeviceIdRequest,
        completes_or_aborts (validate_device_id [("device_id", req.device_id)] "device_id")
          (DeviceService.GetDeviceStatus req)) ∧
    (∀ (u : String) (now : Nat) (req : ReserveDeviceRequest),
        completes_or_aborts (validate_reserve_device req)
          (DeviceService.ReserveDevice u now req)) := by
  refine ⟨fun u now req => completes_or_aborts_of_ite _ _,
    fun now req => completes_or_aborts_of_ite _ _,
    fun req => completes_or_aborts_of_ite _ _,
    fun ts1 ts2 req => completes_or_aborts_of_ite _ _,
    fun now req => completes_or_aborts_of_ite _ _,
    fun req => Or.inl ⟨rfl, { devices := [sim_local_device] }, rfl⟩,
    fun req => completes_or_aborts_of_ite _ _,
    fun req => completes_or_aborts_of_ite _ _,
    fun u now req => completes_or_aborts_of_ite _ _⟩

/-- C2: a submit-job request with empty name, empty target and no program
variant yields violations whose field set is exactly name, target, program,
the program violation carrying description "oneof program is required". -/
theorem C2_submit_job_empty_fields (req : SubmitJobRequest)
    (h1 : req.name = "") (h2 : req.target = "") (h3 : req.program = none) :
    validate_submit_job req =
      [{ field := "name", description := "field is required" },
       { field := "target", description := "field is required" },
       { field := "program", description := "oneof program is required" }] ∧
    (∀ f : String,
      (∃ v ∈ validate_submit_job req, v.field = f) ↔
        (f = "name" ∨ f = "target" ∨ f = "program")) := by
  obtain ⟨n, t, p⟩ := req
  simp only at h1 h2 h3
  subst h1
  subst h2
  subst h3
  refine ⟨rfl, fun f => ?_⟩
  constructor
  · rintro ⟨v, hv, rfl⟩
    fin_cases hv <;> simp
  · rintro (rfl | rfl | rfl)
    · refine ⟨{ field := "name", description := "field is required" }, ?_, rfl⟩
      simp [validate_submit_job, required_string]
    · refine ⟨{ field := "target", description := "field is required" }, ?_, rfl⟩
      simp [validate_submit_job, required_string]
    · refine ⟨{ field := "program", description := "oneof program is required" }, ?_, rfl⟩
      simp [validate_submit_job, required_string]

/-- C2 witness: the concrete empty request. -/
theorem C2_witness :
    validate_submit_job { name := "", target := "", program := none } =
      [{ field := "name", description := "field is required" },
       { field := "target", description := "field is required" },
       { field := "program", description := "oneof program is required" }] ∧
    (∀ f : String,
      (∃ v ∈ validate_submit_job { name := "", target := "", program := none }, v.field = f) ↔
        (f = "name" ∨ f = "target" ∨ f = "program")) :=
  C2_submit_job_empty_fields { name := "", target := "", program := none } rfl rfl rfl

/-- C3 counterexample: a traceparent carrying one trailing newline does not
have the fixed 2-32-16-2 hex format the claim names, yet with no explicit
trace_id header the code extracts the 32-hex group, where the claim requires
trace_id to be None (the Python `$` anchor also accepts a newline before the
end of the string). -/
theorem C3_counterexample :
    spec_traceparent_trace_id
        "00-aaaaaaaaaaaaaaaaaaaaaaaaaaaaaaaa-bbbbbbbbbbbbbbbb-01\n" = none ∧
    md_get [("traceparent", "00-aaaaaaaaaaaaaaaaaaaaaaaaaaaaaaaa-bbbbbbbbbbbbbbbb-01\n")]
        "trace_id" = none ∧
    (new_request_context "req-1"
        [("traceparent", "00-aaaaaaaaaaaaaaaaaaaaaaaaaaaaaaaa-bbbbbbbbbbbbbbbb-01\n")]).trace_id
      = some "aaaaaaaaaaaaaaaaaaaaaaaaaaaaaaaa" := by
  refine ⟨by decide, by decide, by decide⟩

/-- C3 (amended): for every inbound metadata mapping, trace_id is the
explicit trace_id header verbatim when present; otherwise, when a traceparent
header is present, trace_id is the embedded 32-hex group exactly when the
header — after discarding at most one trailing newline character, the
tolerance introduced by the matcher's `$` anchor — has the fixed
2-hex/32-hex/16-hex/2-hex hyphen-joined lowercase format, and None otherwise;
the traceparent header passes through verbatim and nothing ever raises. -/
theorem C3_trace_extraction_amended (fresh : String) (md : List (String × String)) :
    (new_request_context fresh md).request_id = fresh ∧
    (new_request_context fresh md).traceparent = md_get md "traceparent" ∧
    (new_request_context fresh md).trace_id =
      (match md_get md "trace_id", md_get md "traceparent" with
       | some t, _ => some t
       | none, some tp => spec_traceparent_trace_id (strip_trailing_newline tp)
       | none, none => none) := by
  refine ⟨rfl, rfl, ?_⟩
  simp only [new_request_context]
  cases h1 : md_get md "trace_id" with
  | some t => simp
  | none =>
      cases h2 : md_get md "traceparent" with
      | none => simp
      | some tp =>
          simp only
          by_cases h3 : tp = ""
          · subst h3
            simp
            rfl
          · simp [h3, traceparent_trace_id_eq_spec]

/-- C4: a stream-job-updates call with a valid (non-empty) job id emits
exactly two events, with strictly increasing sequence numbers starting at
max(1, last_event_seq + 1), the second carrying progress 1.0 and the terminal
done state. -/
theorem C4_stream_two_events (ts1 ts2 : Nat) (req : StreamJobUpdatesRequest)
    (h : req.job_id ≠ "") :
    ∃ e1 e2, JobService.StreamJobUpdates ts1 ts2 req = Except.ok [e1, e2] ∧
      e1.event_seq = max 1 (req.last_event_seq + 1) ∧
      e2.event_seq = e1.event_seq + 1 ∧
      e1.event_seq < e2.event_seq ∧
      e2.progress = 1 ∧ e2.state = JobState.DONE := by
  refine ⟨{ job_id := req.job_id
            state := JobState.QUEUED
            stage := "QUEUED"
            progress := 0
            message := "queued (stub)"
            event_seq := max 1 (req.last_event_seq + 1)
            timestamp := ts1 },
    { job_id := req.job_id
      state := JobState.DONE
      stage := "DONE"
      progress := 1
      message := "done (stub)"
      event_seq := max 1 (req.last_event_seq + 1) + 1
      timestamp := ts2 },
    ?_, rfl, rfl, by dsimp only; exact lt_add_one _, rfl, rfl⟩
  have hv : validate_job_id [("job_id", req.job_id)] "job_id" = [] := by
    rw [validate_job_id_singleton]
    exact required_string_ne _ _ h
  simp [JobService.StreamJobUpdates, hv]

/-- C4 witness: last_event_seq = 4 gives sequence numbers 5 then 6. -/
theorem C4_witness :
    ∃ e1 e2,
      JobService.StreamJobUpdates 0 0 { job_id := "job-1", last_event_seq := 4 } =
        Except.ok [e1, e2] ∧
      e1.event_seq = 5 ∧ e2.event_seq = 6 ∧ e2.progress = 1 ∧ e2.state = JobState.DONE := by
  obtain ⟨e1, e2, hres, hs1, hs2, -, hp, hst⟩ :=
    C4_stream_two_events 0 0 { job_id := "job-1", last_event_seq := 4 } (by decide)
  refine ⟨e1, e2, hres, ?_, ?_, hp, hst⟩
  · rw [hs1]
    decide
  · rw [hs2, hs1]
    decide

/-- C5: positive_int yields exactly the one violation on the field iff the
value is at most zero, and nothing iff the value is at least one. -/
theorem C5_positive_int (v : Int) (f : String) :
    (positive_int v f = [{ field := f, description := "must be > 0" }] ↔ v ≤ 0) ∧
    (positive_int v f = [] ↔ 1 ≤ v) := by
  unfold positive_int
  by_cases h : v ≤ 0 <;> simp [h] <;> omega

/-- C5 witness: 0 and -7 violate, 1 does not. -/
theorem C5_witness :
    positive_int 0 "ttl_seconds" = [{ field := "ttl_seconds", description := "must be > 0" }] ∧
    positive_int (-7) "ttl_seconds" =
      [{ field := "ttl_seconds", description := "must be > 0" }] ∧
    positive_int 1 "ttl_seconds" = [] :=
  ⟨(C5_positive_int 0 "ttl_seconds").1.mpr (by decide),
   (C5_positive_int (-7) "ttl_seconds").1.mpr (by decide),
   (C5_positive_int 1 "ttl_seconds").2.mpr (by decide)⟩

/-- C6: required_string is total — it always returns zero or one violation,
the single "field is required" violation exactly on the empty value, and its
output depends only on whether the value is empty, not on length or content. -/
theorem C6_required_string (v f : String) :
    (required_string v f = [{ field := f, description := "field is required" }] ↔ v = "") ∧
    (required_string v f = [] ↔ v ≠ "") ∧
    (required_string v f).length ≤ 1 ∧
    (∀ w : String, (v = "" ↔ w = "") → required_string v f = required_string w f) := by
  refine ⟨?_, ?_, ?_, ?_⟩
  · unfold required_string
    by_cases h : v = "" <;> simp [h]
  · unfold required_string
    by_cases h : v = "" <;> simp [h]
  · unfold required_string
    by_cases h : v = "" <;> simp [h]
  · intro w hw
    unfold required_string
    by_cases h : v = ""
    · rw [if_pos h, if_pos (hw.mp h)]
    · rw [if_neg h, if_neg (fun hwe => h (hw.mpr hwe))]

/-- C6 witness: empty yields the violation, a long value yields nothing and
agrees with a short value. -/
theorem C6_witness :
    required_string "" "name" = [{ field := "name", description := "field is required" }] ∧
    required_string "abcdefghij" "name" = [] ∧
    required_string "abcdefghij" "name" = required_string "x" "name" :=
  ⟨(C6_required_string "" "name").1.mpr rfl,
   (C6_required_string "abcdefghij" "name").2.1.mpr (by decide),
   (C6_required_string "abcdefghij" "name").2.2.2 "x" (by decide)⟩

/-- C7: reserve-device with empty device_id and ttl_seconds = 0 is validated
eagerly — both checks run — and the two violations are batched into the one
InvalidInput structured error of the single abort, not reported separately. -/
theorem C7_reserve_device_batched :
    DeviceService.ReserveDevice "0123456789ab" 0 { device_id := "", ttl_seconds := 0 } =
      Except.error
        { code := GRPC_INVALID_ARGUMENT, message := "validation failed",
          field_violations :=
            [{ field := "device_id", description := "field is required" },
             { field := "ttl_seconds", description := "must be > 0" }] } ∧
    (validate_reserve_device { device_id := "", ttl_seconds := 0 }).map FieldViolation.field =
      ["device_id", "ttl_seconds"] :=
  ⟨rfl, rfl⟩

/-- C8: every validation rule is deterministic and idempotent — its result is
a function of the request's field values alone, and a second call on the same
request returns the identical violation sequence (same fields, descriptions
and order). -/
theorem C8_rules_deterministic :
    (∀ r r' : SubmitJobRequest, r.name = r'.name → r.target = r'.target →
        r.program = r'.program → validate_submit_job r = validate_submit_job r') ∧
    (∀ r : SubmitJobRequest, validate_submit_job r = validate_submit_job r) ∧
    (∀ (r : AttrBag) (f : String), validate_job_id r f = validate_job_id r f) ∧
    (∀ (r : AttrBag) (f : String), validate_device_id r f = validate_device_id r f) ∧
    (∀ r : ReserveDeviceRequest, validate_reserve_device r = validate_reserve_device r) := by
  refine ⟨?_, fun r => rfl, fun r f => rfl, fun r f => rfl, fun r => rfl⟩
  intro r r' h1 h2 h3
  have hrr : r = r' := by
    obtain ⟨n, t, p⟩ := r
    obtain ⟨n', t', p'⟩ := r'
    simp_all
  rw [hrr]

/-- C8 witness: a concrete repeated call. -/
theorem C8_witness :
    validate_submit_job { name := "a", target := "b", program := none } =
      validate_submit_job { name := "a", target := "b", program := none } :=
  C8_rules_deterministic.1 { name := "a", target := "b", program := none }
    { name := "a", target := "b", program := none } rfl rfl rfl

/-- C9 counterexample: the claim's sources include the example skeleton
servers, whose list-devices handlers return an empty device list, refuting
the non-emptiness of the canned list for those cited implementations. -/
theorem C9_counterexample :
    PublicApiSkeleton.ListDevices { backend_type := "" } = Except.ok { devices := [] } ∧
    DriverManagerSkeleton.ListDevices { backend_type := "" } = Except.ok { devices := [] } :=
  ⟨rfl, rfl⟩

/-- C9 (amended): every list-devices call is deterministic and never fails;
the system-api handler returns the same non-empty one-element canned list on
every call, while the example skeleton servers return the same empty list on
every call. -/
theorem C9_list_devices_amended (r1 r2 r3 : ListDevicesRequest) :
    DeviceService.ListDevices r1 = Except.ok { devices := [sim_local_device] } ∧
    [sim_local_device] ≠ ([] : List DeviceInfo) ∧
    PublicApiSkeleton.ListDevices r2 = Except.ok { devices := [] } ∧
    DriverManagerSkeleton.ListDevices r3 = Except.ok { devices := [] } :=
  ⟨rfl, by simp, rfl, rfl⟩

/-- C10: validate_job_id and validate_device_id are total on request objects
lacking the identifier attribute: the getattr default turns the missing
attribute into the empty string, producing the single "field is required"
violation instead of an attribute error. -/
theorem C10_missing_attribute_total (bag : AttrBag)
    (hj : List.lookup "job_id" bag = none) (hd : List.lookup "device_id" bag = none) :
    validate_job_id bag "job_id" =
      [{ field := "job_id", description := "field is required" }] ∧
    validate_device_id bag "device_id" =
      [{ field := "device_id", description := "field is required" }] ∧
    validate_job_id bag "job_id" = validate_job_id [("job_id", "")] "job_id" ∧
    validate_device_id bag "device_id" = validate_device_id [("device_id", "")] "device_id" := by
  refine ⟨?_, ?_, ?_, ?_⟩ <;>
    simp [validate_job_id, validate_device_id, getattr_string, hj, hd, required_string,
      List.lookup]

/-- C10 witness: a request object with only an unrelated attribute. -/
theorem C10_witness :
    validate_job_id [("other", "x")] "job_id" =
      [{ field := "job_id", description := "field is required" }] ∧
    validate_device_id [("other", "x")] "device_id" =
      [{ field := "device_id", description := "field is required" }] ∧
    validate_job_id [("other", "x")] "job_id" = validate_job_id [("job_id", "")] "job_id" ∧
    validate_device_id [("other", "x")] "device_id" =
      validate_device_id [("device_id", "")] "device_id" :=
  C10_missing_attribute_total [("other", "x")] (by decide) (by decide)

end SystemApi
